import Mathlib

/-!
Verification development for the NMEA sentence parser of the
test_display_ST7789 repository (src/micropyGPS.py, class MicropyGPS).

The parser is embedded shallowly: the mutable Python object becomes the
structure `GPSState`, every method becomes a pure Lean function from a
state to a result together with the updated state, and Python exceptions
are made explicit.  A decoder result is `DecRes`: either `.ret ok s`
(the method returned the boolean `ok` with object state `s`) or
`.crash s` (an exception escaped the method with the object left in
state `s`).  Likewise `update` yields an `UpdRes`.

Python floats are modelled as exact decimal values plus the special
values inf, -inf and nan (`PyFloat`).  All numeric fields appearing in
the claims are short decimal strings, for which equality of the parsed
Python floats coincides with equality of the exactly parsed decimal
values.
Python `int(str)`, `int(str, 16)` and `float(str)` are modelled by
`pyInt`, `pyIntHex` and `pyFloat` including sign handling, whitespace
stripping, underscore placement rules and inf/nan forms; `x in str` on
strings is the substring test `pySubstrOf`.

`get_ticks()` is an external clock; it is threaded through `update` as
an explicit `tick : Nat` argument, and `new_fix_time` becomes the
assignment of that tick to `fix_time`.  Logging is disabled in the
initial state (`log_en = false`, as in `__init__`) and `write_log` has
no effect on parser state, so the log sink is not modelled.
-/

namespace MicropyGPS

/-- Python float value: an exact decimal `m * 10 ^ e` (with `m` carrying
the sign and, by construction, never divisible by 10 unless zero, and
`(0, 0)` the unique representation of zero), or inf, -inf, nan.  Every
value parsed from a decimal string is represented exactly, so equality
of these values coincides with equality of the decimal numbers the
strings denote. -/
inductive PyFloat where
  | finite (m e : Int)
  | inf
  | ninf
  | nan
deriving DecidableEq

/-- Strip trailing decimal zeros from a mantissa (fuel-driven so that it
computes by structural recursion). -/
def decNormAux : Nat → Int → Int → Int × Int
  | 0, m, e => (m, e)
  | f + 1, m, e => if m % 10 = 0 then decNormAux f (m / 10) (e + 1) else (m, e)

/-- Canonical representation of the decimal `m * 10 ^ e`. -/
def decNorm (m e : Int) : Int × Int :=
  if m = 0 then (0, 0) else decNormAux m.natAbs m e

/-- A `PyFloat` from an arbitrary decimal pair. -/
def PyFloat.ofDec (m e : Int) : PyFloat :=
  .finite (decNorm m e).1 (decNorm m e).2

/-- The comparison `x >= 60.0` used in `__parse_time` (false for nan). -/
def PyFloat.ge60 : PyFloat → Bool
  | .finite m e =>
    if 0 ≤ e then decide (60 ≤ m * (10 : Int) ^ e.toNat)
    else decide (60 * (10 : Int) ^ (-e).toNat ≤ m)
  | .inf => true
  | .ninf => false
  | .nan => false

/-- Digit value of a character in a given base (10 or 16), as Python does. -/
def baseVal (base : Nat) (c : Char) : Option Nat :=
  let v : Option Nat :=
    if 48 ≤ c.toNat ∧ c.toNat ≤ 57 then some (c.toNat - 48)
    else if 97 ≤ c.toNat ∧ c.toNat ≤ 102 then some (c.toNat - 87)
    else if 65 ≤ c.toNat ∧ c.toNat ≤ 70 then some (c.toNat - 55)
    else none
  match v with
  | some d => if d < base then some d else none
  | none => none

/-- Whitespace characters stripped by Python `int()` / `float()` (ASCII part). -/
def isPySpace (c : Char) : Bool :=
  c.toNat = 32 ∨ c.toNat = 9 ∨ c.toNat = 10 ∨ c.toNat = 13 ∨ c.toNat = 11 ∨ c.toNat = 12

/-- Strip leading and trailing whitespace, as Python numeric conversion does. -/
def pyStrip (l : List Char) : List Char :=
  ((l.dropWhile isPySpace).reverse.dropWhile isPySpace).reverse

/-- Evaluate a Python digit run (digits with single underscores strictly
between digits).  Accumulates (value, digit count); `none` on any
violation.  The first character must already be known not to be an
underscore. -/
def digitsValAux (base : Nat) : List Char → Nat → Nat → Option (Nat × Nat)
  | [], acc, cnt => some (acc, cnt)
  | c :: rest, acc, cnt =>
    if c.toNat = 95 then
      match rest with
      | [] => none
      | d :: rest2 =>
        match baseVal base d with
        | none => none
        | some v => digitsValAux base rest2 (acc * base + v) (cnt + 1)
    else
      match baseVal base c with
      | none => none
      | some v => digitsValAux base rest (acc * base + v) (cnt + 1)

/-- A nonempty Python digit part: value and number of digits. -/
def digitsVal (base : Nat) (l : List Char) : Option (Nat × Nat) :=
  match l with
  | [] => none
  | c :: _ => if c.toNat = 95 then none else digitsValAux base l 0 0

/-- Python `int(s)` (base 10): strip whitespace, optional sign, digit part. -/
def pyInt (s : String) : Option Int :=
  let l := pyStrip s.data
  match l with
  | c :: r =>
    if c.toNat = 43 then (digitsVal 10 r).map (fun p => (p.1 : Int))
    else if c.toNat = 45 then (digitsVal 10 r).map (fun p => -(p.1 : Int))
    else (digitsVal 10 l).map (fun p => (p.1 : Int))
  | [] => none

/-- Core of Python `int(s, 16)` after sign removal: optional 0x/0X prefix. -/
def hexCore (l : List Char) : Option Nat :=
  match l with
  | c0 :: c1 :: r =>
    if c0.toNat = 48 ∧ (c1.toNat = 120 ∨ c1.toNat = 88) then
      match r with
      | c2 :: r2 => if c2.toNat = 95 then (digitsVal 16 r2).map (fun p => p.1)
                    else (digitsVal 16 r).map (fun p => p.1)
      | [] => none
    else (digitsVal 16 l).map (fun p => p.1)
  | _ => (digitsVal 16 l).map (fun p => p.1)

/-- Python `int(s, 16)`. -/
def pyIntHex (s : String) : Option Int :=
  let l := pyStrip s.data
  match l with
  | c :: r =>
    if c.toNat = 43 then (hexCore r).map (fun n => (n : Int))
    else if c.toNat = 45 then (hexCore r).map (fun n => -(n : Int))
    else (hexCore l).map (fun n => (n : Int))
  | [] => none

/-- Split a character list at the first character satisfying `p`;
the second component is `none` when no such character occurs. -/
def splitFirst (p : Char → Bool) : List Char → List Char × Option (List Char)
  | [] => ([], none)
  | c :: r =>
    if p c then ([], some r)
    else
      let q := splitFirst p r
      (c :: q.1, q.2)

/-- Lower-case an ASCII character. -/
def lowerChar (c : Char) : Char :=
  if 65 ≤ c.toNat ∧ c.toNat ≤ 90 then Char.ofNat (c.toNat + 32) else c

/-- Numeric part of Python `float(s)` after sign removal:
`digits [. digits] [(e|E) [sign] digits]` with at least one mantissa
digit.  The result is the unnormalized decimal pair (mantissa,
exponent).  (Values beyond the double range would overflow in Python;
the claims only involve short fields, where the decimal value is exact.) -/
def pyFloatNum (l : List Char) : Option (Int × Int) :=
  let se := splitFirst (fun c => c.toNat = 101 ∨ c.toNat = 69) l
  let expPart : Option Int :=
    match se.2 with
    | none => some 0
    | some ex =>
      match ex with
      | c :: r =>
        if c.toNat = 43 then (digitsVal 10 r).map (fun p => (p.1 : Int))
        else if c.toNat = 45 then (digitsVal 10 r).map (fun p => -(p.1 : Int))
        else (digitsVal 10 ex).map (fun p => (p.1 : Int))
      | [] => none
  match expPart with
  | none => none
  | some ep =>
    let sm := splitFirst (fun c => c.toNat = 46) se.1
    match sm.2 with
    | none => (digitsVal 10 sm.1).map (fun p => ((p.1 : Int), ep))
    | some fp =>
      if sm.1 = [] then
        if fp = [] then none
        else (digitsVal 10 fp).map
          (fun pf => ((pf.1 : Int), ep - (pf.2 : Int)))
      else
        match digitsVal 10 sm.1 with
        | none => none
        | some pi =>
          if fp = [] then some ((pi.1 : Int), ep)
          else
            match digitsVal 10 fp with
            | none => none
            | some pf =>
              some ((pi.1 : Int) * (10 : Int) ^ pf.2 + (pf.1 : Int),
                    ep - (pf.2 : Int))

/-- Python `float(s)`. -/
def pyFloat (s : String) : Option PyFloat :=
  let l := pyStrip s.data
  let sc : Bool × List Char :=
    match l with
    | c :: r =>
      if c.toNat = 43 then (false, r)
      else if c.toNat = 45 then (true, r)
      else (false, l)
    | [] => (false, [])
  let low := sc.2.map lowerChar
  if low = ("inf").data ∨ low = ("infinity").data then
    some (if sc.1 then PyFloat.ninf else PyFloat.inf)
  else if low = ("nan").data then some PyFloat.nan
  else (pyFloatNum sc.2).map
    (fun p => PyFloat.ofDec (if sc.1 then -p.1 else p.1) p.2)

/-- `sub.isPrefixOf l` over characters with decidable equality. -/
def listPrefixOf : List Char → List Char → Bool
  | [], _ => true
  | _ :: _, [] => false
  | a :: as, b :: bs => a = b && listPrefixOf as bs

/-- Substring occurrence over character lists. -/
def listContains (sub : List Char) : List Char → Bool
  | [] => listPrefixOf sub []
  | c :: t => listPrefixOf sub (c :: t) || listContains sub t

/-- Python `sub in s` on strings: substring containment
(so the empty string is contained in everything). -/
def pySubstrOf (sub s : String) : Bool := listContains sub.data s.data

/-- Python slice `s[a:b]` (clamping, as Python does). -/
def pySlice (s : String) (a b : Nat) : String := ⟨(s.data.drop a).take (b - a)⟩

/-- Python slice `s[a:]`. -/
def pyDrop (s : String) (a : Nat) : String := ⟨s.data.drop a⟩

/-- Satellite telemetry value stored in `satellite_data`:
(elevation, azimuth, snr), each possibly absent. -/
abbrev SatInfo := Option Int × Option Int × Option Int

/-- Python dict assignment `d[k] = v` on an insertion-ordered
association list. -/
def dictSet (d : List (Int × SatInfo)) (k : Int) (v : SatInfo) :
    List (Int × SatInfo) :=
  if d.any (fun p => p.1 = k) then
    d.map (fun p => if p.1 = k then (k, v) else p)
  else d ++ [(k, v)]

/-- Python `d1.update(d2)`. -/
def dictMerge (d1 d2 : List (Int × SatInfo)) : List (Int × SatInfo) :=
  d2.foldl (fun d p => dictSet d p.1 p.2) d1

/-- The mutable state of a `MicropyGPS` object (fields of `__init__`,
with the byte buffer `__buf` kept as the characters it will decode). -/
structure GPSState where
  sentence_active : Bool
  active_segment : Nat
  process_crc : Bool
  gps_segments : List String
  buf : List Char
  crc_xor : Nat
  char_count : Nat
  fix_time : Nat
  crc_fails : Nat
  clean_sentences : Nat
  parsed_sentences : Nat
  log_en : Bool
  timestamp : Int × Int × PyFloat
  date : Int × Int × Int
  century : Option Int
  local_offset : Int
  _latitude : Int × PyFloat × String
  _longitude : Int × PyFloat × String
  coord_format : String
  speed : PyFloat
  course : PyFloat
  altitude : PyFloat
  geoid_height : PyFloat
  satellites_in_view : Int
  satellites_in_use : Int
  satellites_used : List Int
  last_sv_sentence : Int
  total_sv_sentences : Int
  satellite_data : List (Int × SatInfo)
  hdop : PyFloat
  pdop : PyFloat
  vdop : PyFloat
  valid : Bool
  fix_stat : Int
  fix_type : Int
deriving DecidableEq

/-- Class constant `SENTENCE_LIMIT = 90`. -/
def SENTENCE_LIMIT : Nat := 90

def CLEAR_TIME : Int × Int × PyFloat := (0, 0, PyFloat.finite 0 0)
def CLEAR_DATE : Int × Int × Int := (0, 0, 0)
def CLEAR_LAT : Int × PyFloat × String := (0, PyFloat.finite 0 0, ("N"))
def CLEAR_LON : Int × PyFloat × String := (0, PyFloat.finite 0 0, ("W"))

/-- `MicropyGPS.__init__(local_offset, location_formatting, century)`
with default location formatting. -/
def initState (local_offset : Int) (century : Option Int) : GPSState where
  sentence_active := false
  active_segment := 0
  process_crc := false
  gps_segments := []
  buf := []
  crc_xor := 0
  char_count := 0
  fix_time := 0
  crc_fails := 0
  clean_sentences := 0
  parsed_sentences := 0
  log_en := false
  timestamp := CLEAR_TIME
  date := CLEAR_DATE
  century := century
  local_offset := local_offset
  _latitude := CLEAR_LAT
  _longitude := CLEAR_LON
  coord_format := ("ddm")
  speed := PyFloat.finite 0 0
  course := PyFloat.finite 0 0
  altitude := PyFloat.finite 0 0
  geoid_height := PyFloat.finite 0 0
  satellites_in_view := 0
  satellites_in_use := 0
  satellites_used := []
  last_sv_sentence := 0
  total_sv_sentences := 0
  satellite_data := []
  hdop := PyFloat.nan
  pdop := PyFloat.nan
  vdop := PyFloat.nan
  valid := false
  fix_stat := 0
  fix_type := 1

/-- Result of a decoder method: the returned boolean together with the
object state, or an uncaught exception (`crash`) with the state the
object was left in. -/
inductive DecRes where
  | crash (s : GPSState)
  | ret (ok : Bool) (s : GPSState)
deriving DecidableEq

/-- `MicropyGPS.__parse_time(utc_string)`: returns the boolean result and
the updated state (mutates `timestamp` on success, also on the empty
string; no mutation on failure). -/
def parse_time (s : GPSState) (utc : String) : Bool × GPSState :=
  if utc = ("") then (true, {s with timestamp := CLEAR_TIME})
  else
    match pyInt (pySlice utc 0 2) with
    | none => (false, s)
    | some h =>
      match pyInt (pySlice utc 2 4) with
      | none => (false, s)
      | some m =>
        match pyFloat (pyDrop utc 4) with
        | none => (false, s)
        | some sec =>
          if sec.ge60 ∨ 60 ≤ m then (false, s)
          else (true, {s with timestamp := ((h + s.local_offset) % 24, m, sec)})

/-- `MicropyGPS.__parse_lat_lon(lat_str, lat_hemi, lon_str, lon_hemi)`.
The hemisphere test is the Python substring test `x in "NS"` /
`x in "EW"`. -/
def parse_lat_lon (s : GPSState) (lat_str lat_hemi lon_str lon_hemi : String) :
    Bool × GPSState :=
  if pySubstrOf lat_hemi ("NS") = false ∨ pySubstrOf lon_hemi ("EW") = false then
    (false, s)
  else
    match pyInt (pySlice lat_str 0 2) with
    | none => (false, s)
    | some lat_degs =>
      match pyFloat (pyDrop lat_str 2) with
      | none => (false, s)
      | some lat_mins =>
        match pyInt (pySlice lon_str 0 3) with
        | none => (false, s)
        | some lon_degs =>
          match pyFloat (pyDrop lon_str 3) with
          | none => (false, s)
          | some lon_mins =>
            (true, {s with _latitude := (lat_degs, lat_mins, lat_hemi),
                           _longitude := (lon_degs, lon_mins, lon_hemi)})

/-- The date-stamp block of `gprmc`: the value assigned to `date`, or
`none` when a bad date stamp is present (ValueError). -/
def rmc_date (ds : String) : Option (Int × Int × Int) :=
  if ds = ("") then some CLEAR_DATE
  else
    match pyInt (pySlice ds 0 2) with
    | none => none
    | some day =>
      match pyInt (pySlice ds 2 4) with
      | none => none
      | some month =>
        match pyInt (pySlice ds 4 6) with
        | none => none
        | some year => some (day, month, year)

/-- `MicropyGPS.gprmc`.  Indexing of `gps_segments[2]` catches
IndexError; the date block catches ValueError and IndexError; the other
segment accesses would raise uncaught IndexError (unreachable in
practice because the date block needs segment 9).  `new_fix_time` is the
assignment of the external tick. -/
def gprmc (s : GPSState) (tick : Nat) : DecRes :=
  match s.gps_segments.get? 2 with
  | none => .ret false s
  | some status =>
    if status = ("A") then
      match s.gps_segments.get? 1 with
      | none => .crash s
      | some t1 =>
        let pt := parse_time s t1
        if pt.1 = false then .ret false pt.2
        else
          match pt.2.gps_segments.get? 9 with
          | none => .ret false pt.2
          | some ds =>
            match rmc_date ds with
            | none => .ret false pt.2
            | some dmy =>
              let s2 : GPSState := {pt.2 with date := dmy}
              match s2.gps_segments.get? 3, s2.gps_segments.get? 4,
                    s2.gps_segments.get? 5, s2.gps_segments.get? 6 with
              | some la, some lah, some lo, some loh =>
                let pl := parse_lat_lon s2 la lah lo loh
                if pl.1 = false then .ret false pl.2
                else
                  match pl.2.gps_segments.get? 7 with
                  | none => .crash pl.2
                  | some sp =>
                    match pyFloat sp with
                    | none => .ret false pl.2
                    | some spd_knt =>
                      match pl.2.gps_segments.get? 8 with
                      | none => .crash pl.2
                      | some c8 =>
                        match (if c8 = ("") then some (PyFloat.finite 0 0)
                               else pyFloat c8) with
                        | none => .ret false pl.2
                        | some course =>
                          .ret true {pl.2 with speed := spd_knt, course := course,
                                               valid := true, fix_time := tick}
              | _, _, _, _ => .crash s2
    else
      .ret true {s with _latitude := CLEAR_LAT, _longitude := CLEAR_LON,
                        speed := PyFloat.finite 0 0, course := PyFloat.finite 0 0,
                        valid := false}

/-- `MicropyGPS.gpgll`. -/
def gpgll (s : GPSState) (tick : Nat) : DecRes :=
  match s.gps_segments.get? 6 with
  | none => .ret false s
  | some status =>
    if status = ("A") then
      match s.gps_segments.get? 5 with
      | none => .crash s
      | some t5 =>
        let pt := parse_time s t5
        if pt.1 = false then .ret false pt.2
        else
          match pt.2.gps_segments.get? 1, pt.2.gps_segments.get? 2,
                pt.2.gps_segments.get? 3, pt.2.gps_segments.get? 4 with
          | some la, some lah, some lo, some loh =>
            let pl := parse_lat_lon pt.2 la lah lo loh
            if pl.1 = false then .ret false pl.2
            else .ret true {pl.2 with valid := true, fix_time := tick}
          | _, _, _, _ => .crash pt.2
    else
      .ret true {s with _latitude := CLEAR_LAT, _longitude := CLEAR_LON,
                        valid := false}

/-- `MicropyGPS.gpvtg` (ValueError and IndexError both caught). -/
def gpvtg (s : GPSState) (_tick : Nat) : DecRes :=
  match s.gps_segments.get? 1 with
  | none => .ret false s
  | some c1 =>
    match (if c1 = ("") then some (PyFloat.finite 0 0) else pyFloat c1) with
    | none => .ret false s
    | some course =>
      match s.gps_segments.get? 5 with
      | none => .ret false s
      | some c5 =>
        match (if c5 = ("") then some (PyFloat.finite 0 0) else pyFloat c5) with
        | none => .ret false s
        | some spd_knt => .ret true {s with speed := spd_knt, course := course}

/-- `MicropyGPS.gpgga`.  The first try catches ValueError and
IndexError; the altitude/geoid try catches only ValueError, so a missing
segment 9 or 11 raises an uncaught IndexError. -/
def gpgga (s : GPSState) (tick : Nat) : DecRes :=
  match (s.gps_segments.get? 7).bind pyInt with
  | none => .ret false s
  | some satellites_in_use =>
    match (s.gps_segments.get? 6).bind pyInt with
    | none => .ret false s
    | some fix_stat =>
      match s.gps_segments.get? 1 with
      | none => .crash s
      | some t1 =>
        let pt := parse_time s t1
        if pt.1 = false then .ret false pt.2
        else
          let hdop : PyFloat :=
            match (pt.2.gps_segments.get? 8).bind pyFloat with
            | none => PyFloat.nan
            | some h => h
          if fix_stat ≠ 0 then
            match pt.2.gps_segments.get? 2, pt.2.gps_segments.get? 3,
                  pt.2.gps_segments.get? 4, pt.2.gps_segments.get? 5 with
            | some la, some lah, some lo, some loh =>
              let pl := parse_lat_lon pt.2 la lah lo loh
              if pl.1 = false then .ret false pl.2
              else
                let fin := fun (ag : PyFloat × PyFloat) =>
                  DecRes.ret true {pl.2 with altitude := ag.1, geoid_height := ag.2,
                                             fix_time := tick,
                                             satellites_in_use := satellites_in_use,
                                             hdop := hdop, fix_stat := fix_stat}
                match pl.2.gps_segments.get? 9 with
                | none => .crash pl.2
                | some a9 =>
                  match pyFloat a9 with
                  | none => fin (PyFloat.finite 0 0, PyFloat.finite 0 0)
                  | some alt =>
                    match pl.2.gps_segments.get? 11 with
                    | none => .crash pl.2
                    | some a11 =>
                      match pyFloat a11 with
                      | none => fin (PyFloat.finite 0 0, PyFloat.finite 0 0)
                      | some geoid => fin (alt, geoid)
            | _, _, _, _ => .crash pt.2
          else
            .ret true {pt.2 with satellites_in_use := satellites_in_use,
                                 hdop := hdop, fix_stat := fix_stat}

/-- Outcome of the satellite-PRN loop in `gpgsa`. -/
inductive GsaRes where
  | crash
  | fail
  | done (l : List Int)
deriving DecidableEq

/-- The `for sats in range(12)` loop of `gpgsa`: reads PRN strings at
segment positions 3.., stopping at the first empty field.  The indexing
`gps_segments[3 + sats]` is outside the try, so a missing segment is an
uncaught IndexError (`crash`); a malformed number is ValueError
(`fail`). -/
def gsaLoop (segs : List String) : Nat → Nat → List Int → GsaRes
  | 0, _, acc => .done acc
  | n + 1, i, acc =>
    match segs.get? (3 + i) with
    | none => .crash
    | some str =>
      if str = ("") then .done acc
      else
        match pyInt str with
        | none => .fail
        | some v => gsaLoop segs n (i + 1) (acc ++ [v])

/-- `MicropyGPS.gpgsa`.  All the try blocks here catch only ValueError,
so missing segments raise uncaught IndexError. -/
def gpgsa (s : GPSState) (tick : Nat) : DecRes :=
  match s.gps_segments.get? 2 with
  | none => .crash s
  | some f =>
    match pyInt f with
    | none => .ret false s
    | some fix_type =>
      match gsaLoop s.gps_segments 12 0 [] with
      | .crash => .crash s
      | .fail => .ret false s
      | .done sats_used =>
        match s.gps_segments.get? 15 with
        | none => .crash s
        | some p15 =>
          match pyFloat p15 with
          | none => .ret false s
          | some pdop =>
            match s.gps_segments.get? 16 with
            | none => .crash s
            | some p16 =>
              match pyFloat p16 with
              | none => .ret false s
              | some hdop =>
                match s.gps_segments.get? 17 with
                | none => .crash s
                | some p17 =>
                  match pyFloat p17 with
                  | none => .ret false s
                  | some vdop =>
                    let s1 := if fix_type > 1 then {s with fix_time := tick} else s
                    .ret true {s1 with fix_type := fix_type,
                                       satellites_used := sats_used,
                                       hdop := hdop, vdop := vdop, pdop := pdop}

/-- Outcome of the satellite loop in `gpgsv` (the loop cannot crash:
both of its try blocks catch IndexError). -/
inductive GsvRes where
  | fail
  | done (d : List (Int × SatInfo))
deriving DecidableEq

/-- Number of iterations of Python `range(4, limit, 4)`. -/
def gsvRange (limit : Int) : Nat :=
  if limit ≤ 4 then 0 else ((limit - 5) / 4).toNat + 1

/-- The satellite loop of `gpgsv` at positions 4, 8, 12, ...:
a missing PRN segment returns False (IndexError caught); an empty PRN
field breaks; elevation/azimuth/snr fall back to None on ValueError or
IndexError. -/
def gsvLoop (segs : List String) : Nat → Nat → List (Int × SatInfo) → GsvRes
  | 0, _, d => .done d
  | n + 1, pos, d =>
    match segs.get? pos with
    | none => .fail
    | some prn =>
      if prn = ("") then .done d
      else
        match pyInt prn with
        | none => .fail
        | some sat_id =>
          let elevation := (segs.get? (pos + 1)).bind pyInt
          let azimuth := (segs.get? (pos + 2)).bind pyInt
          let snr := (segs.get? (pos + 3)).bind pyInt
          gsvLoop segs n (pos + 4) (dictSet d sat_id (elevation, azimuth, snr))

/-- The satellite dictionary a single GSV sentence contributes: the loop
bound from the source (`sat_segment_limit`) followed by the loop. -/
def gsv_sat_dict (segs : List String) (num cur sats_in_view : Int) :
    Option (List (Int × SatInfo)) :=
  let limit : Int :=
    if num = cur then (sats_in_view - (num - 1) * 4) * 5 else 20
  match gsvLoop segs (gsvRange limit) 4 [] with
  | .fail => none
  | .done d => some d

/-- `MicropyGPS.gpgsv`.  On success the totals are updated and
`satellite_data` is replaced when the group index is 1, merged
otherwise.  (Indexing of segments 1-3 is in a try catching only
ValueError; a missing segment there is an uncaught IndexError.) -/
def gpgsv (s : GPSState) (_tick : Nat) : DecRes :=
  match s.gps_segments.get? 1 with
  | none => .crash s
  | some a1 =>
    match pyInt a1 with
    | none => .ret false s
    | some num_sv_sentences =>
      match s.gps_segments.get? 2 with
      | none => .crash s
      | some a2 =>
        match pyInt a2 with
        | none => .ret false s
        | some current_sv_sentence =>
          match s.gps_segments.get? 3 with
          | none => .crash s
          | some a3 =>
            match pyInt a3 with
            | none => .ret false s
            | some sats_in_view =>
              match gsv_sat_dict s.gps_segments num_sv_sentences
                  current_sv_sentence sats_in_view with
              | none => .ret false s
              | some d =>
                .ret true {s with
                  total_sv_sentences := num_sv_sentences,
                  last_sv_sentence := current_sv_sentence,
                  satellites_in_view := sats_in_view,
                  satellite_data :=
                    if current_sv_sentence = 1 then d
                    else dictMerge s.satellite_data d}

/-- `MicropyGPS.gpzda`.  A bad date field clears `date` to the sentinel
and returns False; `century` is assigned only when the previous value is
None or exactly one less than the reported century; the date is then
assigned and the sentence accepted unconditionally. -/
def gpzda (s : GPSState) (_tick : Nat) : DecRes :=
  match (s.gps_segments.get? 2).bind pyInt with
  | none => .ret false {s with date := CLEAR_DATE}
  | some day =>
    match (s.gps_segments.get? 3).bind pyInt with
    | none => .ret false {s with date := CLEAR_DATE}
    | some month =>
      match s.gps_segments.get? 4 with
      | none => .ret false {s with date := CLEAR_DATE}
      | some str_year =>
        match pyInt (pySlice str_year 0 2) with
        | none => .ret false {s with date := CLEAR_DATE}
        | some century =>
          match pyInt (pySlice str_year 2 4) with
          | none => .ret false {s with date := CLEAR_DATE}
          | some year =>
            match s.gps_segments.get? 1 with
            | none => .crash s
            | some t1 =>
              let pt := parse_time s t1
              if pt.1 = false then .ret false pt.2
              else
                let s2 :=
                  if pt.2.century = none ∨ pt.2.century = some (century - 1) then
                    {pt.2 with century := some century}
                  else pt.2
                .ret true {s2 with date := (day, month, year)}

/-- `MicropyGPS.satellite_data_updated()`. -/
def satellite_data_updated (s : GPSState) : Bool :=
  if s.total_sv_sentences > 0 ∧ s.total_sv_sentences = s.last_sv_sentence then
    true
  else false

/-- The class-level `supported_sentences` dispatch dict. -/
def supported_sentences (id0 : String) : Option (GPSState → Nat → DecRes) :=
  if id0 = ("GPRMC") ∨ id0 = ("GLRMC") ∨ id0 = ("GNRMC") then some gprmc
  else if id0 = ("GPGGA") ∨ id0 = ("GLGGA") ∨ id0 = ("GNGGA") then some gpgga
  else if id0 = ("GPVTG") ∨ id0 = ("GLVTG") ∨ id0 = ("GNVTG") then some gpvtg
  else if id0 = ("GPGSA") ∨ id0 = ("GLGSA") ∨ id0 = ("GNGSA") then some gpgsa
  else if id0 = ("GPGSV") ∨ id0 = ("GLGSV") then some gpgsv
  else if id0 = ("GPGLL") ∨ id0 = ("GLGLL") ∨ id0 = ("GNGLL") then some gpgll
  else if id0 = ("GPZDA") then some gpzda
  else none

/-- `MicropyGPS.new_sentence()`. -/
def new_sentence (s : GPSState) : GPSState :=
  {s with gps_segments := [], active_segment := 0, crc_xor := 0,
          sentence_active := true, process_crc := true, char_count := 0,
          buf := []}

/-- `MicropyGPS.__update_segment()`: append the decoded buffer as a new
segment and clear the buffer. -/
def update_segment (s : GPSState) : GPSState :=
  {s with gps_segments := s.gps_segments ++ [String.mk s.buf], buf := []}

/-- Result of one `update` call: the returned value (a sentence id or
None) with the new state, or an uncaught exception. -/
inductive UpdRes where
  | crash (s : GPSState)
  | ret (out : Option String) (s : GPSState)
deriving DecidableEq

/-- Dict membership `x in supported_sentences`. -/
def isSupported (id0 : String) : Bool := (supported_sentences id0).isSome

/-- The early-abandonment check at the end of `update` (note the Python
precedence `(A and B) or C`): reading `gps_segments[0]` happens only
when `active_segment == 1`. -/
def tail_check (s : GPSState) : UpdRes :=
  if s.active_segment = 1 then
    match s.gps_segments.get? 0 with
    | none => .crash s
    | some seg0 =>
      if isSupported seg0 = false ∨ s.char_count > SENTENCE_LIMIT then
        .ret none {s with sentence_active := false}
      else .ret none s
  else
    if s.char_count > SENTENCE_LIMIT then
      .ret none {s with sentence_active := false}
    else .ret none s

/-- Sentence completion in `update`: the two checksum characters are in,
so the CRC segment is committed, the checksum compared and, on a match,
the dispatched decoder run. -/
def finalize (s : GPSState) (tick : Nat) : UpdRes :=
  let s2 := update_segment {s with sentence_active := false}
  match s2.gps_segments.get? s2.active_segment with
  | none => .crash s2
  | some crcStr =>
    match pyIntHex crcStr with
    | none => .ret none s2
    | some v =>
      if (s2.crc_xor : Int) ≠ v then
        .ret none {s2 with crc_fails := s2.crc_fails + 1}
      else
        let s3 := {s2 with clean_sentences := s2.clean_sentences + 1}
        match s3.gps_segments.get? 0 with
        | none => .crash s3
        | some id0 =>
          match supported_sentences id0 with
          | none => tail_check s3
          | some dec =>
            match dec s3 tick with
            | .crash s4 => .crash s4
            | .ret true s4 =>
              .ret (some id0) {s4 with parsed_sentences := s4.parsed_sentences + 1}
            | .ret false s4 => tail_check s4

/-- The common tail of the `,`-branch and the plain-character branch of
`update`: XOR while before the checksum introducer, finalize once the
two checksum characters are buffered, otherwise the abandonment check. -/
def afterBranch (s1 : GPSState) (a : Nat) (tick : Nat) : UpdRes :=
  if s1.process_crc then
    tail_check {s1 with crc_xor := Nat.xor s1.crc_xor a}
  else if s1.buf.length = 2 then finalize s1 tick
  else tail_check s1

/-- `MicropyGPS.update(new_char)`.  `tick` is the value `get_ticks()`
would return during this call. -/
def update (s0 : GPSState) (c : Char) (tick : Nat) : UpdRes :=
  let a := c.toNat
  if (32 ≤ a ∧ a ≤ 126) ∨ a = 10 ∨ a = 13 then
    let s := {s0 with char_count := s0.char_count + 1}
    if a = 36 then .ret none (new_sentence s)
    else if s.sentence_active then
      if a = 44 then
        afterBranch {(update_segment s) with active_segment := s.active_segment + 1}
          a tick
      else if a = 42 then
        .ret none {(update_segment {s with process_crc := false}) with
                    active_segment := s.active_segment + 1}
      else
        afterBranch {s with buf := s.buf ++ [c]} a tick
    else .ret none s
  else .ret none s0

/-- Feed a character list through `update` one character at a time
(each call with tick 0), collecting the return values; `none` when some
call raised an uncaught exception. -/
def feed : GPSState → List Char → Option (List (Option String) × GPSState)
  | s, [] => some ([], s)
  | s, c :: cs =>
    match update s c 0 with
    | .crash _ => none
    | .ret o s1 =>
      match feed s1 cs with
      | none => none
      | some p => some (o :: p.1, p.2)

/-- The sentence identifiers returned by a run (the non-None outputs). -/
def sentIds (outs : List (Option String)) : List String :=
  outs.filterMap (fun o => o)

/-- The object state after a decoder call, whether it returned or raised. -/
def decState : DecRes → GPSState
  | .crash s => s
  | .ret _ s => s

/-- The object state after an `update` call, whether it returned or raised. -/
def updState : UpdRes → GPSState
  | .crash s => s
  | .ret _ s => s

/-- The three sentence-statistics counters of a state. -/
def counters (s : GPSState) : Nat × Nat × Nat :=
  (s.crc_fails, s.clean_sentences, s.parsed_sentences)

/-! Structural lemmas: `__parse_time` touches only `timestamp`,
`__parse_lat_lon` only the coordinates. -/

lemma parse_time_snd (s : GPSState) (u : String) :
    (parse_time s u).2 = s ∨ ∃ t, (parse_time s u).2 = {s with timestamp := t} := by
  unfold parse_time
  repeat' split
  all_goals first | exact Or.inl rfl | exact Or.inr ⟨_, rfl⟩

lemma parse_lat_lon_snd (s : GPSState) (a b c d : String) :
    (parse_lat_lon s a b c d).2 = s ∨
      ∃ la lo, (parse_lat_lon s a b c d).2 =
        {s with _latitude := la, _longitude := lo} := by
  unfold parse_lat_lon
  repeat' split
  all_goals first | exact Or.inl rfl | exact Or.inr ⟨_, _, rfl⟩

lemma parse_time_crc_fails (s : GPSState) (u : String) :
    (parse_time s u).2.crc_fails = s.crc_fails := by
  rcases parse_time_snd s u with h | ⟨t, h⟩ <;> rw [h]

lemma parse_time_clean (s : GPSState) (u : String) :
    (parse_time s u).2.clean_sentences = s.clean_sentences := by
  rcases parse_time_snd s u with h | ⟨t, h⟩ <;> rw [h]

lemma parse_time_parsed (s : GPSState) (u : String) :
    (parse_time s u).2.parsed_sentences = s.parsed_sentences := by
  rcases parse_time_snd s u with h | ⟨t, h⟩ <;> rw [h]

lemma parse_time_century (s : GPSState) (u : String) :
    (parse_time s u).2.century = s.century := by
  rcases parse_time_snd s u with h | ⟨t, h⟩ <;> rw [h]

lemma parse_time_date (s : GPSState) (u : String) :
    (parse_time s u).2.date = s.date := by
  rcases parse_time_snd s u with h | ⟨t, h⟩ <;> rw [h]

lemma parse_time_segments (s : GPSState) (u : String) :
    (parse_time s u).2.gps_segments = s.gps_segments := by
  rcases parse_time_snd s u with h | ⟨t, h⟩ <;> rw [h]

lemma parse_lat_lon_crc_fails (s : GPSState) (a b c d : String) :
    (parse_lat_lon s a b c d).2.crc_fails = s.crc_fails := by
  rcases parse_lat_lon_snd s a b c d with h | ⟨la, lo, h⟩ <;> rw [h]

lemma parse_lat_lon_clean (s : GPSState) (a b c d : String) :
    (parse_lat_lon s a b c d).2.clean_sentences = s.clean_sentences := by
  rcases parse_lat_lon_snd s a b c d with h | ⟨la, lo, h⟩ <;> rw [h]

lemma parse_lat_lon_parsed (s : GPSState) (a b c d : String) :
    (parse_lat_lon s a b c d).2.parsed_sentences = s.parsed_sentences := by
  rcases parse_lat_lon_snd s a b c d with h | ⟨la, lo, h⟩ <;> rw [h]

lemma parse_lat_lon_segments (s : GPSState) (a b c d : String) :
    (parse_lat_lon s a b c d).2.gps_segments = s.gps_segments := by
  rcases parse_lat_lon_snd s a b c d with h | ⟨la, lo, h⟩ <;> rw [h]

/-! No decoder method touches the three statistics counters: they are
modified only inside `update` itself. -/

section CountersDecoders

set_option linter.unreachableTactic false
set_option linter.unusedTactic false

lemma counters_gprmc (s : GPSState) (t : Nat) :
    counters (decState (gprmc s t)) = counters s := by
  rcases hr : gprmc s t with s' | ⟨b, s'⟩
  all_goals unfold gprmc at hr
  all_goals (try dsimp only at hr)
  all_goals repeat' split at hr
  all_goals (first
    | (injection hr with hb hs; subst hs; try subst hb)
    | (injection hr with hs; subst hs)
    | injection hr
    | skip)
  all_goals simp only [counters, decState, parse_time_crc_fails, parse_time_clean,
    parse_time_parsed, parse_lat_lon_crc_fails, parse_lat_lon_clean,
    parse_lat_lon_parsed, Prod.mk.injEq, and_true, true_and, and_self]
  all_goals (try rfl)

lemma counters_gpgll (s : GPSState) (t : Nat) :
    counters (decState (gpgll s t)) = counters s := by
  rcases hr : gpgll s t with s' | ⟨b, s'⟩
  all_goals unfold gpgll at hr
  all_goals (try dsimp only at hr)
  all_goals repeat' split at hr
  all_goals (first
    | (injection hr with hb hs; subst hs; try subst hb)
    | (injection hr with hs; subst hs)
    | injection hr
    | skip)
  all_goals simp only [counters, decState, parse_time_crc_fails, parse_time_clean,
    parse_time_parsed, parse_lat_lon_crc_fails, parse_lat_lon_clean,
    parse_lat_lon_parsed, Prod.mk.injEq, and_true, true_and, and_self]
  all_goals (try rfl)

lemma counters_gpvtg (s : GPSState) (t : Nat) :
    counters (decState (gpvtg s t)) = counters s := by
  rcases hr : gpvtg s t with s' | ⟨b, s'⟩
  all_goals unfold gpvtg at hr
  all_goals (try dsimp only at hr)
  all_goals repeat' split at hr
  all_goals (first
    | (injection hr with hb hs; subst hs; try subst hb)
    | (injection hr with hs; subst hs)
    | injection hr
    | skip)
  all_goals rfl

lemma counters_gpgga (s : GPSState) (t : Nat) :
    counters (decState (gpgga s t)) = counters s := by
  rcases hr : gpgga s t with s' | ⟨b, s'⟩
  all_goals unfold gpgga at hr
  all_goals (try dsimp only at hr)
  all_goals repeat' split at hr
  all_goals (first
    | (injection hr with hb hs; subst hs; try subst hb)
    | (injection hr with hs; subst hs)
    | injection hr
    | skip)
  all_goals simp only [counters, decState, parse_time_crc_fails, parse_time_clean,
    parse_time_parsed, parse_lat_lon_crc_fails, parse_lat_lon_clean,
    parse_lat_lon_parsed, Prod.mk.injEq, and_true, true_and, and_self]
  all_goals (try rfl)

lemma counters_gpgsa (s : GPSState) (t : Nat) :
    counters (decState (gpgsa s t)) = counters s := by
  rcases hr : gpgsa s t with s' | ⟨b, s'⟩
  all_goals unfold gpgsa at hr
  all_goals (try dsimp only at hr)
  all_goals repeat' split at hr
  all_goals (first
    | (injection hr with hb hs; subst hs; try subst hb)
    | (injection hr with hs; subst hs)
    | injection hr
    | skip)
  all_goals rfl

lemma counters_gpgsv (s : GPSState) (t : Nat) :
    counters (decState (gpgsv s t)) = counters s := by
  rcases hr : gpgsv s t with s' | ⟨b, s'⟩
  all_goals unfold gpgsv at hr
  all_goals (try dsimp only at hr)
  all_goals repeat' split at hr
  all_goals (first
    | (injection hr with hb hs; subst hs; try subst hb)
    | (injection hr with hs; subst hs)
    | injection hr
    | skip)
  all_goals rfl

lemma counters_gpzda (s : GPSState) (t : Nat) :
    counters (decState (gpzda s t)) = counters s := by
  rcases hr : gpzda s t with s' | ⟨b, s'⟩
  all_goals unfold gpzda at hr
  all_goals (try dsimp only at hr)
  all_goals repeat' split at hr
  all_goals (first
    | (injection hr with hb hs; subst hs; try subst hb)
    | (injection hr with hs; subst hs)
    | injection hr
    | skip)
  all_goals simp only [counters, decState, parse_time_crc_fails, parse_time_clean,
    parse_time_parsed, Prod.mk.injEq, and_true, true_and, and_self]
  all_goals (try rfl)

lemma counters_supported (id0 : String) (dec : GPSState → Nat → DecRes)
    (h : supported_sentences id0 = some dec) (s : GPSState) (t : Nat) :
    counters (decState (dec s t)) = counters s := by
  unfold supported_sentences at h
  repeat' split at h
  all_goals (first | (injection h with h2; subst h2) | injection h)
  · exact counters_gprmc s t
  · exact counters_gpgga s t
  · exact counters_gpvtg s t
  · exact counters_gpgsa s t
  · exact counters_gpgsv s t
  · exact counters_gpgll s t
  · exact counters_gpzda s t

lemma counters_tail_check (s : GPSState) :
    counters (updState (tail_check s)) = counters s := by
  unfold tail_check
  repeat' split
  all_goals rfl

/-- Counter change of a completed-sentence step: unchanged (deformed CRC
field, or a crash before dispatch), `crc_fails` incremented on a
checksum mismatch, `clean_sentences` incremented on a checksum match,
plus `parsed_sentences` when the dispatched decoder succeeds. -/
lemma counters_finalize (s : GPSState) (t : Nat) :
    counters (updState (finalize s t)) = counters s
    ∨ counters (updState (finalize s t)) =
        (s.crc_fails + 1, s.clean_sentences, s.parsed_sentences)
    ∨ counters (updState (finalize s t)) =
        (s.crc_fails, s.clean_sentences + 1, s.parsed_sentences)
    ∨ counters (updState (finalize s t)) =
        (s.crc_fails, s.clean_sentences + 1, s.parsed_sentences + 1) := by
  unfold finalize
  dsimp only
  generalize hs2 : update_segment {s with sentence_active := false} = s2
  have hc2 : counters s2 = counters s := by rw [← hs2]; rfl
  simp only [counters, Prod.mk.injEq] at hc2
  split
  · refine Or.inl ?_
    simp only [updState, counters, Prod.mk.injEq]
    omega
  next crcStr heq =>
    split
    · refine Or.inl ?_
      simp only [updState, counters, Prod.mk.injEq]
      omega
    next v heq2 =>
      split
      · refine Or.inr (Or.inl ?_)
        simp only [updState, counters, Prod.mk.injEq]
        omega
      next hne =>
        split
        · refine Or.inr (Or.inr (Or.inl ?_))
          simp only [updState, counters, Prod.mk.injEq]
          omega
        next id0 heq3 =>
          split
          · refine Or.inr (Or.inr (Or.inl ?_))
            have ht := counters_tail_check ({s2 with
              clean_sentences := s2.clean_sentences + 1})
            rw [ht]
            simp only [counters, Prod.mk.injEq]
            omega
          next dec heq4 =>
            split
            next s4 heq5 =>
              have h := counters_supported id0 dec heq4
                ({s2 with clean_sentences := s2.clean_sentences + 1}) t
              rw [heq5] at h
              refine Or.inr (Or.inr (Or.inl ?_))
              simp only [updState, decState, counters, Prod.mk.injEq] at h ⊢
              omega
            next s4 heq5 =>
              have h := counters_supported id0 dec heq4
                ({s2 with clean_sentences := s2.clean_sentences + 1}) t
              rw [heq5] at h
              simp only [decState, counters, Prod.mk.injEq] at h
              refine Or.inr (Or.inr (Or.inr ?_))
              simp only [updState, counters, Prod.mk.injEq]
              omega
            next s4 heq5 =>
              have h := counters_supported id0 dec heq4
                ({s2 with clean_sentences := s2.clean_sentences + 1}) t
              rw [heq5] at h
              simp only [decState, counters, Prod.mk.injEq] at h
              refine Or.inr (Or.inr (Or.inl ?_))
              rw [counters_tail_check s4]
              simp only [counters, Prod.mk.injEq]
              omega

lemma counters_afterBranch (s1 : GPSState) (a t : Nat) :
    counters (updState (afterBranch s1 a t)) = counters s1
    ∨ counters (updState (afterBranch s1 a t)) =
        (s1.crc_fails + 1, s1.clean_sentences, s1.parsed_sentences)
    ∨ counters (updState (afterBranch s1 a t)) =
        (s1.crc_fails, s1.clean_sentences + 1, s1.parsed_sentences)
    ∨ counters (updState (afterBranch s1 a t)) =
        (s1.crc_fails, s1.clean_sentences + 1, s1.parsed_sentences + 1) := by
  unfold afterBranch
  split
  · exact Or.inl (counters_tail_check _)
  · split
    · exact counters_finalize s1 t
    · exact Or.inl (counters_tail_check s1)

/-- Counter change of a single `update` call. -/
lemma counters_update (s : GPSState) (c : Char) (t : Nat) :
    counters (updState (update s c t)) = counters s
    ∨ counters (updState (update s c t)) =
        (s.crc_fails + 1, s.clean_sentences, s.parsed_sentences)
    ∨ counters (updState (update s c t)) =
        (s.crc_fails, s.clean_sentences + 1, s.parsed_sentences)
    ∨ counters (updState (update s c t)) =
        (s.crc_fails, s.clean_sentences + 1, s.parsed_sentences + 1) := by
  unfold update
  dsimp only
  split
  · split
    · exact Or.inl rfl
    · split
      · split
        · exact counters_afterBranch _ _ _
        · split
          · exact Or.inl rfl
          · exact counters_afterBranch _ _ _
      · exact Or.inl rfl
  · exact Or.inl rfl

end CountersDecoders

end MicropyGPS

namespace MicropyGPS

set_option maxRecDepth 10000

/-! ### Concrete runs used by the claims -/

/-- A checksum-valid GSA sentence with no data fields.  The body is
`GPGSA`, whose XOR is 0x42, so the checksum matches and `gpgsa` is
dispatched on a segment list of length 2. -/
def gsaCrashInput : String := "$GPGSA*42"

/-- The GGA example sentence of the specification (checksum 47 is the
XOR of the body). -/
def ggaSentence : String :=
  "$GPGGA,123519,4807.038,N,01131.000,E,1,08,0.9,545.4,M,46.9,M,,*47\r\n"

def runGGA : Option (List (Option String) × GPSState) :=
  feed (initState 0 none) ggaSentence.data

/-- A checksum-valid RMC sentence whose speed field `abc` fails float
conversion after time, date and coordinates have been committed. -/
def rmcBadSpeed : String :=
  "$GPRMC,123519,A,4807.038,N,01131.000,E,abc,084.4,230394,,*5B\r\n"

def runRMCBad : Option (List (Option String) × GPSState) :=
  feed (initState 0 none) rmcBadSpeed.data

/-- A checksum-valid ZDA sentence reporting year 1999 (century 19). -/
def zdaRegress : String := "$GPZDA,123519,15,06,1999,00,00*4F\r\n"

/-- Fed to a parser whose century is 20. -/
def runZDARegress : Option (List (Option String) × GPSState) :=
  feed (initState 0 (some 20)) zdaRegress.data

/-- The GGA example sentence with its checksum field corrupted to the
non-hex `4Z`. -/
def ggaBadCrc : String :=
  "$GPGGA,123519,4807.038,N,01131.000,E,1,08,0.9,545.4,M,46.9,M,,*4Z\r\n"

def runGGABadCrc : Option (List (Option String) × GPSState) :=
  feed (initState 0 none) ggaBadCrc.data

/-- A checksum-valid GLL sentence whose latitude hemisphere field is
empty (body XOR is 0x6B). -/
def gllEmptyHemi : String := "$GPGLL,4807.038,,01131.000,E,123519,A*6B\r\n"

def runGLLEmptyHemi : Option (List (Option String) × GPSState) :=
  feed (initState 0 none) gllEmptyHemi.data

/-- A start delimiter followed by 95 non-terminating characters, then
the well-formed GGA sentence. -/
def runawayThenGGA : String :=
  "$" ++ String.mk (List.replicate 95 (Char.ofNat 65)) ++ ggaSentence

def runRunaway : Option (List (Option String) × GPSState) :=
  feed (initState 0 none) runawayThenGGA.data

/-! ### Claims -/

/-- C1: the specification claims `update` never raises an uncaught
exception on any character stream.  The code violates this: in `gpgsa`
the read of `gps_segments[2]` (and of segments 15-17) is guarded only by
`except ValueError`, so the checksum-valid sentence `$GPGSA*42` raises
an uncaught IndexError inside the dispatched decoder.  In the embedding
an uncaught exception surfaces as `feed ... = none`. -/
theorem c1_parser_crashes_on_short_gsa :
    feed (initState 0 none) gsaCrashInput.data = none := by decide

/-- C8: feeding the specification example GGA sentence to a freshly
initialized parser (local offset 0) yields exactly one sentence
identifier, `GPGGA`, and the stated timestamp, coordinates, fix status,
satellites in use, HDOP and altitude (values as exact decimals:
7.038 = 7038e-3, 0.9 = 9e-1, 545.4 = 5454e-1). -/
theorem c8_gga_example :
    (runGGA.map (fun p => (sentIds p.1, p.2.timestamp))) =
      some ([("GPGGA")], ((12 : Int), (35 : Int), PyFloat.finite 19 0))
    ∧ (runGGA.map (fun p => (p.2._latitude, p.2._longitude))) =
      some (((48 : Int), PyFloat.finite 7038 (-3), ("N" : String)),
            ((11 : Int), PyFloat.finite 31 0, ("E" : String)))
    ∧ (runGGA.map (fun p => (p.2.fix_stat, p.2.satellites_in_use, p.2.hdop,
        p.2.altitude))) =
      some ((1 : Int), (8 : Int), PyFloat.finite 9 (-1), PyFloat.finite 5454 (-1)) := by
  refine ⟨by decide, by decide, by decide⟩

/-- C2 counterexample: a checksum-valid RMC sentence (clean_sentences
becomes 1) whose decoder returns failure (parsed_sentences stays 0, no
identifier is returned) has nevertheless committed timestamp and date:
the final state differs from the initial sentinel values, refuting the
claimed all-or-nothing update. -/
theorem c2_partial_commit_counterexample :
    (runRMCBad.map (fun p => (sentIds p.1, p.2.clean_sentences,
        p.2.parsed_sentences))) = some (([] : List String), 1, 0)
    ∧ (runRMCBad.map (fun p => (p.2.timestamp, p.2.date))) =
      some (((12 : Int), (35 : Int), PyFloat.finite 19 0),
            ((23 : Int), (3 : Int), (94 : Int)))
    ∧ ((12 : Int), (35 : Int), PyFloat.finite 19 0) ≠ (initState 0 none).timestamp
    ∧ ((23 : Int), (3 : Int), (94 : Int)) ≠ (initState 0 none).date := by
  refine ⟨by decide, by decide, by decide, by decide⟩

end MicropyGPS

namespace MicropyGPS

/-- Segment list of the bad-speed RMC sentence, as `update` would build
it (final element is the checksum field). -/
def rmcBadSpeedState : GPSState :=
  {initState 0 none with gps_segments :=
    ["GPRMC", "123519", "A", "4807.038", "N", "01131.000", "E", "abc",
     "084.4", "230394", "", "5B"]}

/-- A ZDA segment list whose day field is not a number, decoded from a
state that already holds a date. -/
def zdaBadDateState : GPSState :=
  {initState 0 none with
    date := (15, 6, 99),
    gps_segments := ["GPZDA", "123519", "xx", "06", "2023", "", ""]}

/-- C2 amended: decoders are not atomic.  `gprmc` commits timestamp,
date and both coordinates before validating the speed field, so a
failing decode returns False with those four fields already updated;
and `gpzda` reacts to a bad date field by clearing `date` to the
sentinel (a mutation on the failure path) before returning False. -/
theorem c2_amended_partial_commit :
    gprmc rmcBadSpeedState 0 = DecRes.ret false
      {rmcBadSpeedState with
        timestamp := (12, 35, PyFloat.finite 19 0),
        date := (23, 3, 94),
        _latitude := (48, PyFloat.finite 7038 (-3), ("N")),
        _longitude := (11, PyFloat.finite 31 0, ("E"))}
    ∧ gpzda zdaBadDateState 0 =
      DecRes.ret false {zdaBadDateState with date := (0, 0, 0)} := by
  refine ⟨by decide, by decide⟩

/-- C3 counterexample: with a previously tracked century of 20, the ZDA
sentence reporting year 1999 (century 19, neither the previous century
nor its successor) is NOT rejected: `update` returns `GPZDA`, the date
field is overwritten with (15, 6, 99), and only the century attribute
keeps its old value.  The claim said the sentence is rejected and the
date left unchanged. -/
theorem c3_century_regression_counterexample :
    (runZDARegress.map (fun p => (sentIds p.1, p.2.century))) =
      some ([("GPZDA")], some (20 : Int))
    ∧ (runZDARegress.map (fun p => p.2.date)) =
      some ((15 : Int), (6 : Int), (99 : Int))
    ∧ ((15 : Int), (6 : Int), (99 : Int)) ≠ (initState 0 (some 20)).date := by
  refine ⟨by decide, by decide, by decide⟩

/-- C4 counterexample: a complete sentence whose checksum field `4Z`
cannot equal the running XOR (it is not even valid hex) is discarded
without decoding, but `crc_fails` is NOT incremented (the ValueError
path returns before the counter update), refuting the claimed
increment by exactly 1. -/
theorem c4_malformed_checksum_counterexample :
    (runGGABadCrc.map (fun p => (sentIds p.1, p.2.crc_fails,
        p.2.clean_sentences, p.2.parsed_sentences))) =
      some (([] : List String), 0, 0, 0) := by decide

/-- C5 counterexample: in the initial state the total sentence count
equals the last-seen index (both 0), yet `satellite_data_updated`
returns false because of the additional `total > 0` conjunct; the
claimed biconditional (complete exactly when total equals last index)
fails. -/
theorem c5_completeness_counterexample :
    (initState 0 none).total_sv_sentences = (initState 0 none).last_sv_sentence
    ∧ satellite_data_updated (initState 0 none) = false := by
  refine ⟨by decide, by decide⟩

/-- C6 counterexample: the hemisphere check is the Python substring
test, and the empty string is a substring of every string.  A
checksum-valid GLL sentence with an empty latitude-hemisphere field is
therefore accepted: `update` returns `GPGLL` and the stored latitude is
changed, with the empty string recorded as its hemisphere — refuting
the claim that an empty hemisphere field fails the sentence parse and
leaves the coordinates unchanged. -/
theorem c6_empty_hemisphere_counterexample :
    (runGLLEmptyHemi.map (fun p => (sentIds p.1, p.2._latitude))) =
      some ([("GPGLL")], ((48 : Int), PyFloat.finite 7038 (-3), ("" : String)))
    ∧ ((48 : Int), PyFloat.finite 7038 (-3), ("" : String)) ≠
        (initState 0 none)._latitude := by
  refine ⟨by decide, by decide⟩

end MicropyGPS

namespace MicropyGPS

set_option maxRecDepth 10000

/-- Appending one element and reading at the old length. -/
lemma get?_append_singleton {α : Type} (l : List α) (a : α) :
    (l ++ [a]).get? l.length = some a := by simp

/-- C9: an RMC or GLL sentence whose validity status field is present
and differs from `A` makes the decoder clear the coordinates (and for
RMC also speed and course) to their sentinels and set `valid := false`,
returning True, with every other field — in particular timestamp and
date — unchanged (the result is an explicit record update of the input
state). -/
theorem c9_invalid_status_clears_position :
    (∀ (s : GPSState) (tick : Nat) (st : String),
      s.gps_segments.get? 2 = some st → st ≠ ("A") →
      gprmc s tick = DecRes.ret true
        {s with
          _latitude := CLEAR_LAT, _longitude := CLEAR_LON,
          speed := PyFloat.finite 0 0, course := PyFloat.finite 0 0,
          valid := false})
    ∧ (∀ (s : GPSState) (tick : Nat) (st : String),
      s.gps_segments.get? 6 = some st → st ≠ ("A") →
      gpgll s tick = DecRes.ret true
        {s with
          _latitude := CLEAR_LAT, _longitude := CLEAR_LON,
          valid := false}) := by
  constructor
  · intro s tick st h2 hne
    unfold gprmc
    rw [h2]
    simp only [if_neg hne]
  · intro s tick st h6 hne
    unfold gpgll
    rw [h6]
    simp only [if_neg hne]

/-- A state holding the segments of an RMC sentence with status `V`,
with non-sentinel position data to make the clearing visible. -/
def rmcInvalidState : GPSState :=
  {initState 0 none with
    valid := true, speed := PyFloat.finite 5 0,
    _latitude := (1, PyFloat.finite 2 0, ("S")),
    gps_segments := ["GPRMC", "123519", "V", "", "", "", "", "", "", "230394",
      "", "XX"]}

/-- A state holding the segments of a GLL sentence with status `V`. -/
def gllInvalidState : GPSState :=
  {initState 0 none with
    valid := true, _longitude := (3, PyFloat.finite 4 0, ("W")),
    gps_segments := ["GPGLL", "", "", "", "", "123519", "V", "XX"]}

theorem c9_invalid_status_clears_position_witness :
    gprmc rmcInvalidState 0 = DecRes.ret true
      {rmcInvalidState with
        _latitude := CLEAR_LAT, _longitude := CLEAR_LON,
        speed := PyFloat.finite 0 0, course := PyFloat.finite 0 0,
        valid := false}
    ∧ gpgll gllInvalidState 0 = DecRes.ret true
      {gllInvalidState with
        _latitude := CLEAR_LAT, _longitude := CLEAR_LON,
        valid := false} :=
  ⟨c9_invalid_status_clears_position.1 rmcInvalidState 0 ("V") (by decide)
      (by decide),
   c9_invalid_status_clears_position.2 gllInvalidState 0 ("V") (by decide)
      (by decide)⟩

/-- C6 amended: the hemisphere validation of `__parse_lat_lon` is the
Python substring test, not a membership test in the two valid letters:
a hemisphere field that is not a substring of `NS` (latitude) resp.
`EW` (longitude) fails the parse with the state unchanged, but the
empty field (and the exact two-letter string) passes the check — the
concrete conjunct shows the empty latitude hemisphere being accepted
and stored. -/
theorem c6_amended_hemisphere_substring :
    (∀ (s : GPSState) (la lh lo loh : String),
      pySubstrOf lh ("NS") = false →
      parse_lat_lon s la lh lo loh = (false, s))
    ∧ (∀ (s : GPSState) (la lh lo loh : String),
      pySubstrOf loh ("EW") = false →
      parse_lat_lon s la lh lo loh = (false, s))
    ∧ parse_lat_lon (initState 0 none) ("4807.038") ("") ("01131.000") ("E")
      = (true, {initState 0 none with
          _latitude := (48, PyFloat.finite 7038 (-3), ("")),
          _longitude := (11, PyFloat.finite 31 0, ("E"))}) := by
  refine ⟨?_, ?_, by decide⟩
  · intro s la lh lo loh h
    unfold parse_lat_lon
    rw [if_pos (Or.inl h)]
  · intro s la lh lo loh h
    unfold parse_lat_lon
    rw [if_pos (Or.inr h)]

theorem c6_amended_hemisphere_substring_witness :
    parse_lat_lon (initState 0 none) ("4807.038") ("Q") ("01131.000") ("E") =
      (false, initState 0 none)
    ∧ parse_lat_lon (initState 0 none) ("4807.038") ("N") ("01131.000") ("Q") =
      (false, initState 0 none) :=
  ⟨c6_amended_hemisphere_substring.1 (initState 0 none) ("4807.038") ("Q")
      ("01131.000") ("E") (by decide),
   c6_amended_hemisphere_substring.2.1 (initState 0 none) ("4807.038") ("N")
      ("01131.000") ("Q") (by decide)⟩

/-- C3 amended: for a ZDA sentence with well-formed day, month, year and
time fields, the sentence is always accepted (decoder returns True) and
the date is always overwritten; the tracked century is set to the
reported value exactly when there was no previous century or the
reported value is the previous century plus one (so an equal reported
century also leaves the stored value equal to the reported one), and is
left at its previous value otherwise. -/
theorem c3_amended_century_policy (s : GPSState) (tick : Nat)
    (d2 d3 sy t1 : String) (day month cent year : Int) (s1 : GPSState)
    (h2 : s.gps_segments.get? 2 = some d2) (hd : pyInt d2 = some day)
    (h3 : s.gps_segments.get? 3 = some d3) (hm : pyInt d3 = some month)
    (h4 : s.gps_segments.get? 4 = some sy)
    (hc : pyInt (pySlice sy 0 2) = some cent)
    (hy : pyInt (pySlice sy 2 4) = some year)
    (h1 : s.gps_segments.get? 1 = some t1)
    (hpt : parse_time s t1 = (true, s1)) :
    ∃ s2, gpzda s tick = DecRes.ret true s2 ∧ s2.date = (day, month, year) ∧
      ((s.century = none ∨ s.century = some cent ∨ s.century = some (cent - 1)) →
        s2.century = some cent) ∧
      (∀ pc : Int, s.century = some pc → pc ≠ cent → pc ≠ cent - 1 →
        s2.century = some pc) := by
  have hcent1 : s1.century = s.century := by
    have h := parse_time_century s t1
    rw [hpt] at h
    exact h
  unfold gpzda
  rw [h2]
  simp only [Option.some_bind]
  rw [hd]
  dsimp only
  rw [h3]
  simp only [Option.some_bind]
  rw [hm]
  dsimp only
  rw [h4]
  dsimp only
  rw [hc]
  dsimp only
  rw [hy]
  dsimp only
  rw [h1]
  dsimp only
  rw [hpt]
  dsimp only
  refine ⟨_, rfl, rfl, ?_, ?_⟩
  · intro h
    rcases h with h | h | h
    · rw [if_pos (Or.inl (hcent1.trans h))]
    · have hno : ¬(s1.century = none ∨ s1.century = some (cent - 1)) := by
        rw [hcent1, h]
        rintro (hx | hx)
        · exact Option.noConfusion hx
        · have := Option.some.inj hx
          omega
      rw [if_neg hno, hcent1, h]
    · rw [if_pos (Or.inr (hcent1.trans h))]
  · intro pc hpc hne hne2
    have hno : ¬(s1.century = none ∨ s1.century = some (cent - 1)) := by
      rw [hcent1, hpc]
      rintro (hx | hx)
      · exact Option.noConfusion hx
      · exact hne2 (Option.some.inj hx)
    rw [if_neg hno, hcent1, hpc]

/-- The segments of the ZDA sentence for 15.06.2105, fed to a parser
whose century is 20 (so 21 = 20 + 1 is accepted). -/
def zdaAdvanceState : GPSState :=
  {initState 0 (some 20) with
    gps_segments := ["GPZDA", "123519", "15", "06", "2105", "00", "00"]}

theorem c3_amended_century_policy_witness :
    ∃ s2, gpzda zdaAdvanceState 0 = DecRes.ret true s2 ∧ s2.date = (15, 6, 5) ∧
      ((zdaAdvanceState.century = none ∨ zdaAdvanceState.century = some 21 ∨
        zdaAdvanceState.century = some (21 - 1)) → s2.century = some 21) ∧
      (∀ pc : Int, zdaAdvanceState.century = some pc → pc ≠ 21 → pc ≠ 21 - 1 →
        s2.century = some pc) :=
  c3_amended_century_policy zdaAdvanceState 0 ("15") ("06") ("2105") ("123519")
    15 6 21 5 {zdaAdvanceState with timestamp := (12, 35, PyFloat.finite 19 0)}
    (by decide) (by decide) (by decide) (by decide) (by decide) (by decide)
    (by decide) (by decide) (by decide)

end MicropyGPS

namespace MicropyGPS

set_option maxRecDepth 10000

/-- C4 amended: when the two buffered checksum characters complete a
sentence (process_crc already off, one byte buffered, segment count in
the reachable relation with `active_segment`), then: if the checksum
field hex-decodes to a value different from the running XOR
accumulator, `update` returns None with `crc_fails` incremented by
exactly 1 and no other Fix Model field touched (no decoder is invoked);
if the checksum field is not valid hex, the sentence is likewise
discarded without decoding but `crc_fails` is NOT incremented. -/
theorem c4_amended_checksum_behavior :
    (∀ (s : GPSState) (c : Char) (tick : Nat) (v : Int),
      ((32 ≤ c.toNat ∧ c.toNat ≤ 126) ∨ c.toNat = 10 ∨ c.toNat = 13) →
      c.toNat ≠ 36 → c.toNat ≠ 44 → c.toNat ≠ 42 →
      s.sentence_active = true → s.process_crc = false →
      s.buf.length = 1 →
      s.gps_segments.length = s.active_segment →
      pyIntHex (String.mk (s.buf ++ [c])) = some v →
      (s.crc_xor : Int) ≠ v →
      update s c tick = UpdRes.ret none
        {s with
          char_count := s.char_count + 1, sentence_active := false,
          gps_segments := s.gps_segments ++ [String.mk (s.buf ++ [c])],
          buf := [], crc_fails := s.crc_fails + 1})
    ∧ (∀ (s : GPSState) (c : Char) (tick : Nat),
      ((32 ≤ c.toNat ∧ c.toNat ≤ 126) ∨ c.toNat = 10 ∨ c.toNat = 13) →
      c.toNat ≠ 36 → c.toNat ≠ 44 → c.toNat ≠ 42 →
      s.sentence_active = true → s.process_crc = false →
      s.buf.length = 1 →
      s.gps_segments.length = s.active_segment →
      pyIntHex (String.mk (s.buf ++ [c])) = none →
      update s c tick = UpdRes.ret none
        {s with
          char_count := s.char_count + 1, sentence_active := false,
          gps_segments := s.gps_segments ++ [String.mk (s.buf ++ [c])],
          buf := []}) := by
  constructor
  · intro s c tick v hacc h36 h44 h42 hact hpc hbuf hlen hhex hne
    unfold update
    dsimp only
    rw [if_pos hacc, if_neg h36, if_pos hact, if_neg h44, if_neg h42]
    unfold afterBranch
    dsimp only
    have hnpc : ¬(s.process_crc = true) := by rw [hpc]; exact Bool.false_ne_true
    rw [if_neg hnpc]
    have hl2 : (s.buf ++ [c]).length = 2 := by
      rw [List.length_append, hbuf]
      rfl
    rw [if_pos hl2]
    unfold finalize update_segment
    dsimp only
    have hget : (s.gps_segments ++ [String.mk (s.buf ++ [c])]).get?
        s.active_segment = some (String.mk (s.buf ++ [c])) := by
      rw [← hlen]
      exact get?_append_singleton _ _
    rw [hget]
    dsimp only
    rw [hhex]
    dsimp only
    rw [if_pos hne]
  · intro s c tick hacc h36 h44 h42 hact hpc hbuf hlen hhex
    unfold update
    dsimp only
    rw [if_pos hacc, if_neg h36, if_pos hact, if_neg h44, if_neg h42]
    unfold afterBranch
    dsimp only
    have hnpc : ¬(s.process_crc = true) := by rw [hpc]; exact Bool.false_ne_true
    rw [if_neg hnpc]
    have hl2 : (s.buf ++ [c]).length = 2 := by
      rw [List.length_append, hbuf]
      rfl
    rw [if_pos hl2]
    unfold finalize update_segment
    dsimp only
    have hget : (s.gps_segments ++ [String.mk (s.buf ++ [c])]).get?
        s.active_segment = some (String.mk (s.buf ++ [c])) := by
      rw [← hlen]
      exact get?_append_singleton _ _
    rw [hget]
    dsimp only
    rw [hhex]

/-- The state of a parser that has read `$GPGSA*` and the checksum
character `4` (XOR accumulator 0x42 = 66), awaiting the final checksum
character. -/
def crcWaitState : GPSState :=
  {initState 0 none with
    sentence_active := true, process_crc := false, active_segment := 1,
    gps_segments := ["GPGSA"], buf := [Char.ofNat 52], crc_xor := 66,
    char_count := 7}

theorem c4_amended_checksum_behavior_witness :
    update crcWaitState (Char.ofNat 51) 0 = UpdRes.ret none
      {crcWaitState with
        char_count := crcWaitState.char_count + 1,
        sentence_active := false,
        gps_segments := crcWaitState.gps_segments ++
          [String.mk (crcWaitState.buf ++ [Char.ofNat 51])],
        buf := [], crc_fails := crcWaitState.crc_fails + 1}
    ∧ update crcWaitState (Char.ofNat 90) 0 = UpdRes.ret none
      {crcWaitState with
        char_count := crcWaitState.char_count + 1,
        sentence_active := false,
        gps_segments := crcWaitState.gps_segments ++
          [String.mk (crcWaitState.buf ++ [Char.ofNat 90])],
        buf := []} :=
  ⟨c4_amended_checksum_behavior.1 crcWaitState (Char.ofNat 51) 0 67
      (by decide) (by decide) (by decide) (by decide) (by decide) (by decide)
      (by decide) (by decide) (by decide) (by decide),
   c4_amended_checksum_behavior.2 crcWaitState (Char.ofNat 90) 0
      (by decide) (by decide) (by decide) (by decide) (by decide) (by decide)
      (by decide) (by decide) (by decide)⟩

end MicropyGPS

namespace MicropyGPS

set_option maxRecDepth 10000

/-- C5 amended: on a well-formed GSV sentence the totals are updated
and the per-sentence satellite dictionary `d` REPLACES `satellite_data`
when the group index is 1 — independently of the previous contents —
and is MERGED into it (Python dict.update) for any other index; and
`satellite_data_updated` returns true exactly when the total sentence
count is positive AND equals the last-seen index (the positivity
conjunct is what the original claim was missing). -/
theorem c5_amended_gsv_aggregation :
    (∀ (s : GPSState) (tick : Nat) (a1 a2 a3 : String) (num cur sv : Int)
        (d : List (Int × SatInfo)),
      s.gps_segments.get? 1 = some a1 → pyInt a1 = some num →
      s.gps_segments.get? 2 = some a2 → pyInt a2 = some cur →
      s.gps_segments.get? 3 = some a3 → pyInt a3 = some sv →
      gsv_sat_dict s.gps_segments num cur sv = some d →
      (cur = 1 →
        gpgsv s tick = DecRes.ret true
          {s with
            total_sv_sentences := num, last_sv_sentence := cur,
            satellites_in_view := sv, satellite_data := d})
      ∧ (cur ≠ 1 →
        gpgsv s tick = DecRes.ret true
          {s with
            total_sv_sentences := num, last_sv_sentence := cur,
            satellites_in_view := sv,
            satellite_data := dictMerge s.satellite_data d}))
    ∧ (∀ s : GPSState, satellite_data_updated s = true ↔
        (0 < s.total_sv_sentences ∧
         s.total_sv_sentences = s.last_sv_sentence)) := by
  constructor
  · intro s tick a1 a2 a3 num cur sv d h1 hn h2 hc h3 hs hd
    unfold gpgsv
    rw [h1]
    dsimp only
    rw [hn]
    dsimp only
    rw [h2]
    dsimp only
    rw [hc]
    dsimp only
    rw [h3]
    dsimp only
    rw [hs]
    dsimp only
    rw [hd]
    dsimp only
    constructor
    · intro hcur
      rw [if_pos hcur]
    · intro hcur
      rw [if_neg hcur]
  · intro s
    unfold satellite_data_updated
    split
    · next h => exact iff_of_true rfl ⟨h.1, h.2⟩
    · next h =>
      exact iff_of_false (by exact Bool.false_ne_true)
        (fun hx => h ⟨hx.1, hx.2⟩)

/-- Satellite dictionary contributed by the first GSV sentence of the
two-sentence example group. -/
def gsvDict1 : List (Int × SatInfo) :=
  [(1, (some 40, some 83, some 46)), (2, (some 17, some 308, some 41)),
   (12, (some 7, some 344, some 39)), (14, (some 22, some 228, some 45))]

/-- Satellite dictionary contributed by the second sentence. -/
def gsvDict2 : List (Int × SatInfo) :=
  [(19, (some 13, some 291, some 48)), (23, (some 61, some 187, some 42)),
   (27, (some 35, some 109, some 43)), (31, (some 9, some 45, some 36))]

/-- A state holding the segments of GSV sentence 1 of 2, with stale
satellite data from an earlier group that must be replaced. -/
def gsvState1 : GPSState :=
  {initState 0 none with
    satellite_data := [(99, (none, none, none))],
    gps_segments := ["GPGSV", "2", "1", "08", "01", "40", "083", "46", "02",
      "17", "308", "41", "12", "07", "344", "39", "14", "22", "228", "45", "75"]}

/-- A state holding the segments of GSV sentence 2 of 2, with the data
of sentence 1 already stored. -/
def gsvState2 : GPSState :=
  {initState 0 none with
    satellite_data := gsvDict1,
    gps_segments := ["GPGSV", "2", "2", "08", "19", "13", "291", "48", "23",
      "61", "187", "42", "27", "35", "109", "43", "31", "09", "045", "36", "70"]}

def gsvDoneState : GPSState :=
  {initState 0 none with total_sv_sentences := 2, last_sv_sentence := 2}

theorem c5_amended_gsv_aggregation_witness :
    gpgsv gsvState1 0 = DecRes.ret true
      {gsvState1 with
        total_sv_sentences := 2, last_sv_sentence := 1,
        satellites_in_view := 8, satellite_data := gsvDict1}
    ∧ gpgsv gsvState2 0 = DecRes.ret true
      {gsvState2 with
        total_sv_sentences := 2, last_sv_sentence := 2,
        satellites_in_view := 8,
        satellite_data := dictMerge gsvState2.satellite_data gsvDict2}
    ∧ (satellite_data_updated gsvDoneState = true ↔
        (0 < gsvDoneState.total_sv_sentences ∧
         gsvDoneState.total_sv_sentences = gsvDoneState.last_sv_sentence)) :=
  ⟨(c5_amended_gsv_aggregation.1 gsvState1 0 ("2") ("1") ("08") 2 1 8 gsvDict1
      (by decide) (by decide) (by decide) (by decide) (by decide) (by decide)
      (by decide)).1 rfl,
   (c5_amended_gsv_aggregation.1 gsvState2 0 ("2") ("2") ("08") 2 2 8 gsvDict2
      (by decide) (by decide) (by decide) (by decide) (by decide) (by decide)
      (by decide)).2 (by decide),
   c5_amended_gsv_aggregation.2 gsvDoneState⟩

end MicropyGPS

namespace MicropyGPS

set_option maxRecDepth 10000

/-- If the character count has already reached the sentence limit, the
abandonment check clears `sentence_active`. -/
lemma tail_check_over_limit (s : GPSState) (hcc : s.char_count > SENTENCE_LIMIT)
    (hseg : s.active_segment = 1 → s.gps_segments ≠ []) :
    tail_check s = UpdRes.ret none {s with sentence_active := false} := by
  unfold tail_check
  by_cases h1 : s.active_segment = 1
  · rw [if_pos h1]
    rcases hg : s.gps_segments with _ | ⟨a, l⟩
    · exact absurd hg (hseg h1)
    · dsimp only [List.get?]
      rw [if_pos (Or.inr hcc)]
  · rw [if_neg h1, if_pos hcc]

/-- C7: (a) while a sentence is active and still accumulating its XOR,
any accepted character other than a new start delimiter or the checksum
introducer, arriving once `char_count` has reached the 90-character
limit, makes `update` return None with the sentence abandoned
(`sentence_active` cleared); (b) concretely, a start delimiter followed
by 95 filler characters and then the well-formed GGA example sentence
still yields exactly the identifier `GPGGA` with its fields decoded —
the parser recovers. -/
theorem c7_sentence_limit_abandon_and_recover :
    (∀ (s : GPSState) (c : Char) (tick : Nat),
      ((32 ≤ c.toNat ∧ c.toNat ≤ 126) ∨ c.toNat = 10 ∨ c.toNat = 13) →
      c.toNat ≠ 36 → c.toNat ≠ 42 →
      s.sentence_active = true → s.process_crc = true →
      SENTENCE_LIMIT ≤ s.char_count →
      (s.active_segment = 1 → s.gps_segments ≠ []) →
      ∃ s', update s c tick = UpdRes.ret none s' ∧ s'.sentence_active = false)
    ∧ (runRunaway.map (fun p => (sentIds p.1, p.2.fix_stat,
        p.2.satellites_in_use))) = some ([("GPGGA")], (1 : Int), (8 : Int)) := by
  constructor
  · intro s c tick hacc h36 h42 hact hpc hcc hseg
    unfold update
    dsimp only
    rw [if_pos hacc, if_neg h36, if_pos hact]
    by_cases h44 : c.toNat = 44
    · rw [if_pos h44]
      unfold afterBranch update_segment
      dsimp only
      rw [if_pos hpc]
      refine ⟨_, tail_check_over_limit _ ?_ ?_, rfl⟩
      · show s.char_count + 1 > SENTENCE_LIMIT
        omega
      · intro h1
        dsimp only
        exact fun hx => List.cons_ne_nil _ _ (List.append_eq_nil.mp hx).2
    · rw [if_neg h44, if_neg h42]
      unfold afterBranch
      dsimp only
      rw [if_pos hpc]
      refine ⟨_, tail_check_over_limit _ ?_ ?_, rfl⟩
      · show s.char_count + 1 > SENTENCE_LIMIT
        omega
      · intro h1
        exact hseg h1
  · decide

/-- A runaway sentence: active, XOR still accumulating, and the
90-character limit already consumed. -/
def runawayState : GPSState :=
  {initState 0 none with
    sentence_active := true, process_crc := true, char_count := 90,
    buf := [Char.ofNat 65]}

theorem c7_sentence_limit_witness :
    ∃ s', update runawayState (Char.ofNat 65) 0 = UpdRes.ret none s' ∧
      s'.sentence_active = false :=
  c7_sentence_limit_abandon_and_recover.1 runawayState (Char.ofNat 65) 0
    (by decide) (by decide) (by decide) (by decide) (by decide) (by decide)
    (by decide)

/-- C10: in every single `update` call the three statistics counters
are non-decreasing and grow by at most 1; at most one of `crc_fails`
and `clean_sentences` is incremented; and `parsed_sentences` never
overtakes `clean_sentences` (it is incremented only together with it),
so the invariant `parsed_sentences ≤ clean_sentences` — true of the
initial state — is preserved by every call, whether the call returns or
raises. -/
theorem c10_counter_invariants (s : GPSState) (c : Char) (t : Nat)
    (hinv : s.parsed_sentences ≤ s.clean_sentences) :
    (s.crc_fails ≤ (updState (update s c t)).crc_fails ∧
     s.clean_sentences ≤ (updState (update s c t)).clean_sentences ∧
     s.parsed_sentences ≤ (updState (update s c t)).parsed_sentences) ∧
    ((updState (update s c t)).crc_fails ≤ s.crc_fails + 1 ∧
     (updState (update s c t)).clean_sentences ≤ s.clean_sentences + 1 ∧
     (updState (update s c t)).parsed_sentences ≤ s.parsed_sentences + 1) ∧
    ¬((updState (update s c t)).crc_fails = s.crc_fails + 1 ∧
      (updState (update s c t)).clean_sentences = s.clean_sentences + 1) ∧
    (updState (update s c t)).parsed_sentences ≤
      (updState (update s c t)).clean_sentences := by
  have h := counters_update s c t
  simp only [counters, Prod.mk.injEq] at h
  rcases h with ⟨h1, h2, h3⟩ | ⟨h1, h2, h3⟩ | ⟨h1, h2, h3⟩ | ⟨h1, h2, h3⟩ <;>
    refine ⟨⟨?_, ?_, ?_⟩, ⟨?_, ?_, ?_⟩, ?_, ?_⟩ <;> omega

theorem c10_counter_invariants_witness :
    ((initState 0 none).crc_fails ≤
        (updState (update (initState 0 none) (Char.ofNat 36) 0)).crc_fails ∧
     (initState 0 none).clean_sentences ≤
        (updState (update (initState 0 none) (Char.ofNat 36) 0)).clean_sentences ∧
     (initState 0 none).parsed_sentences ≤
        (updState (update (initState 0 none) (Char.ofNat 36) 0)).parsed_sentences) ∧
    ((updState (update (initState 0 none) (Char.ofNat 36) 0)).crc_fails ≤
        (initState 0 none).crc_fails + 1 ∧
     (updState (update (initState 0 none) (Char.ofNat 36) 0)).clean_sentences ≤
        (initState 0 none).clean_sentences + 1 ∧
     (updState (update (initState 0 none) (Char.ofNat 36) 0)).parsed_sentences ≤
        (initState 0 none).parsed_sentences + 1) ∧
    ¬((updState (update (initState 0 none) (Char.ofNat 36) 0)).crc_fails =
        (initState 0 none).crc_fails + 1 ∧
      (updState (update (initState 0 none) (Char.ofNat 36) 0)).clean_sentences =
        (initState 0 none).clean_sentences + 1) ∧
    (updState (update (initState 0 none) (Char.ofNat 36) 0)).parsed_sentences ≤
      (updState (update (initState 0 none) (Char.ofNat 36) 0)).clean_sentences :=
  c10_counter_invariants (initState 0 none) (Char.ofNat 36) 0 (by decide)

end MicropyGPS
